import Mathlib

/-!
Shallow embedding of the hotkey detection and dispatch subsystem of the
`improve-writing` utility (files `src/input.rs` and `src/event_loop.rs`).

Pure functions (`parse_hotkey`, the modifier tracking, the chord matching)
are translated directly; the stateful keyboard-listener thread is modelled
as an explicit step function on a listener state, with the environment
(elapsed time, results of `find_keyboards`, results of each device's
`fetch_events`) passed in as data.
-/

namespace ImproveWriting

/-- The evdev key codes this program touches: the six physical modifier keys,
the keys `parse_hotkey` can produce (F1–F12, ScrollLock, Pause, Insert), the
baseline alphabetic key `KEY_A` used by `find_keyboards`, and a catch-all
`other` for any further key code. -/
inductive Key where
  | KEY_LEFTSHIFT
  | KEY_RIGHTSHIFT
  | KEY_LEFTCTRL
  | KEY_RIGHTCTRL
  | KEY_LEFTALT
  | KEY_RIGHTALT
  | KEY_F1
  | KEY_F2
  | KEY_F3
  | KEY_F4
  | KEY_F5
  | KEY_F6
  | KEY_F7
  | KEY_F8
  | KEY_F9
  | KEY_F10
  | KEY_F11
  | KEY_F12
  | KEY_SCROLLLOCK
  | KEY_PAUSE
  | KEY_INSERT
  | KEY_A
  | other (code : Nat)
deriving DecidableEq, Repr

/-- Rust `struct Modifiers { shift, ctrl, alt }` from `src/input.rs` (Default
derives to all-false). -/
structure Modifiers where
  shift : Bool := false
  ctrl : Bool := false
  alt : Bool := false
deriving DecidableEq, Repr

/-- Value of `Modifiers::default()`: all three booleans false. -/
def Modifiers.default : Modifiers := {}

/-- Rust `struct Hotkey { key, modifiers }` from `src/input.rs`. -/
structure Hotkey where
  key : Key
  modifiers : Modifiers
deriving DecidableEq, Repr

/-- Rust `enum HotkeyEvent` from `src/event_loop.rs`. `Improve` is the main
hotkey (registered first, index 0 in `src/main.rs`), `ImproveShowOriginal`
the show-original hotkey (registered second, index 1). -/
inductive HotkeyEvent where
  | Improve
  | ImproveShowOriginal
deriving DecidableEq, Repr

/-- Model of Rust `str::to_uppercase` on the ASCII tokens this program
uses: uppercase every character. -/
def toUpperStr (s : String) : String := String.mk (s.data.map Char.toUpper)

/-- Model of Rust `str::split('+').collect::<Vec<_>>()`: split the character
list at every `+`; the result always has at least one (possibly empty)
part. -/
def splitPlusChars : List Char → List (List Char)
  | [] => [[]]
  | c :: rest =>
    let r := splitPlusChars rest
    if c = '+' then [] :: r
    else
      match r with
      | [] => [[c]]
      | g :: gs => (c :: g) :: gs

/-- Rust `s.split('+')` as a list of strings. -/
def splitPlus (s : String) : List String := (splitPlusChars s.data).map String.mk

/-- Model of Rust `str::starts_with`: the pattern's characters are a prefix
of the string's characters. -/
def startsWithStr (s pat : String) : Bool := pat.data.isPrefixOf s.data

/-- One modifier token of `parse_hotkey` (`src/input.rs` lines 27–34):
matched after uppercasing; an unrecognised token is the error
`Unknown modifier: {part}`. -/
def applyModifier (modifiers : Modifiers) (part : String) : Except String Modifiers :=
  match toUpperStr part with
  | "SHIFT" => Except.ok { modifiers with shift := true }
  | "CTRL" => Except.ok { modifiers with ctrl := true }
  | "CONTROL" => Except.ok { modifiers with ctrl := true }
  | "ALT" => Except.ok { modifiers with alt := true }
  | _ => Except.error ("Unknown modifier: " ++ part)

/-- The key-token table of `parse_hotkey` (`src/input.rs` lines 38–55):
matched after uppercasing; an unrecognised token is the error
`Unknown key: {key_str}`. -/
def parseKey (key_str : String) : Except String Key :=
  match toUpperStr key_str with
  | "F1" => Except.ok Key.KEY_F1
  | "F2" => Except.ok Key.KEY_F2
  | "F3" => Except.ok Key.KEY_F3
  | "F4" => Except.ok Key.KEY_F4
  | "F5" => Except.ok Key.KEY_F5
  | "F6" => Except.ok Key.KEY_F6
  | "F7" => Except.ok Key.KEY_F7
  | "F8" => Except.ok Key.KEY_F8
  | "F9" => Except.ok Key.KEY_F9
  | "F10" => Except.ok Key.KEY_F10
  | "F11" => Except.ok Key.KEY_F11
  | "F12" => Except.ok Key.KEY_F12
  | "SCROLLLOCK" => Except.ok Key.KEY_SCROLLLOCK
  | "PAUSE" => Except.ok Key.KEY_PAUSE
  | "INSERT" => Except.ok Key.KEY_INSERT
  | _ => Except.error ("Unknown key: " ++ key_str)

/-- Function `parse_hotkey` from `src/input.rs`: split on `+`; a single part is the
key alone; otherwise every part but the last is a modifier token and the
last part is the key token. -/
def parse_hotkey (s : String) : Except String Hotkey :=
  let parts := splitPlus s
  if parts.length = 1 then
    match parseKey (parts.headD "") with
    | Except.ok key => Except.ok { key := key, modifiers := Modifiers.default }
    | Except.error e => Except.error e
  else
    match parts.dropLast.foldlM applyModifier Modifiers.default with
    | Except.ok modifiers =>
        match parseKey (parts.getLastD "") with
        | Except.ok key => Except.ok { key := key, modifiers := modifiers }
        | Except.error e => Except.error e
    | Except.error e => Except.error e

/-- A raw input device as `find_keyboards` sees it:
`supported_keys()` returns an optional key set. -/
structure RawDevice where
  id : Nat
  supported_keys : Option (List Key)
deriving DecidableEq, Repr

/-- Rust `device.supported_keys().map(|keys| keys.contains(Key::KEY_A)).unwrap_or(false)`
(`src/input.rs` lines 79–83). -/
def supportsKeyboard (device : RawDevice) : Bool :=
  match device.supported_keys with
  | some keys => keys.contains Key.KEY_A
  | none => false

/-- One `/dev/input` directory entry as `find_keyboards` sees it: its file
name and the outcome of `Device::open` (`none` = the open failed and the
entry is skipped). -/
structure DirEntry where
  name : String
  openResult : Option RawDevice
deriving DecidableEq, Repr

/-- The error message of `find_keyboards` when no keyboard was found
(`src/input.rs` lines 91–93). -/
def NO_KEYBOARDS_MSG : String :=
  "No keyboards found. Make sure you're in the 'input' group or running as root."

/-- The device-collection loop of `find_keyboards` (`src/input.rs` lines
64–88): skip entries whose name does not start with `event`, skip entries
whose open failed, keep an opened device only when it supports `KEY_A`. -/
def collectKeyboards : List DirEntry → List RawDevice
  | [] => []
  | entry :: rest =>
    if !(startsWithStr entry.name "event") then collectKeyboards rest
    else
      match entry.openResult with
      | some device =>
          if supportsKeyboard device then device :: collectKeyboards rest
          else collectKeyboards rest
      | none => collectKeyboards rest

/-- Function `find_keyboards` from `src/input.rs`: collect the keyboard devices and
fail with `NO_KEYBOARDS_MSG` when the collected list is empty. -/
def find_keyboards (entries : List DirEntry) : Except String (List RawDevice) :=
  let keyboards := collectKeyboards entries
  if keyboards.isEmpty then Except.error NO_KEYBOARDS_MSG
  else Except.ok keyboards

/-- The modifier-tracking arm of the listener (`src/event_loop.rs` lines
79–106): `pressed = value == 1`, `released = value == 0`; for each of the
six physical modifier keys the logical modifier is first assigned
`pressed || (!released && current)` and then forced to `false` when
`released`; every other key leaves the state untouched. -/
def updateMods (current_mods : Modifiers) (key : Key) (value : Int) : Modifiers :=
  let pressed := value == 1
  let released := value == 0
  match key with
  | Key.KEY_LEFTSHIFT | Key.KEY_RIGHTSHIFT =>
      let m := { current_mods with shift := pressed || (!released && current_mods.shift) }
      if released then { m with shift := false } else m
  | Key.KEY_LEFTCTRL | Key.KEY_RIGHTCTRL =>
      let m := { current_mods with ctrl := pressed || (!released && current_mods.ctrl) }
      if released then { m with ctrl := false } else m
  | Key.KEY_LEFTALT | Key.KEY_RIGHTALT =>
      let m := { current_mods with alt := pressed || (!released && current_mods.alt) }
      if released then { m with alt := false } else m
  | _ => current_mods

/-- The `mods_match` comparison (`src/event_loop.rs` lines 113–116 and
126–128): the three booleans compared field by field. -/
def modsMatch (a b : Modifiers) : Bool :=
  a.shift == b.shift && a.ctrl == b.ctrl && a.alt == b.alt

/-- The chord-dispatch arm of the listener (`src/event_loop.rs` lines
108–133), run after the modifier update: the show-original hotkey is
checked first; when its key, the press phase and the modifiers all match,
`ImproveShowOriginal` is sent and the rest of the body is skipped
(`continue`); otherwise the main hotkey is checked the same way and a
match sends `Improve`. -/
def chordMatch (hotkey : Hotkey) (show_original_hotkey : Option Hotkey)
    (current_mods : Modifiers) (key : Key) (value : Int) : List HotkeyEvent :=
  let pressed := value == 1
  let soHit :=
    match show_original_hotkey with
    | some so => key == so.key && pressed && modsMatch current_mods so.modifiers
    | none => false
  if soHit then [HotkeyEvent.ImproveShowOriginal]
  else if key == hotkey.key && pressed && modsMatch current_mods hotkey.modifiers then
    [HotkeyEvent.Improve]
  else []

/-- One event from `fetch_events`: either a key event (`InputEventKind::Key`)
with its value (`1` press, `0` release, `2` autorepeat), or any other
event kind, which the listener ignores. -/
inductive InputEvent where
  | key (k : Key) (value : Int)
  | nonKey
deriving DecidableEq, Repr

/-- The whole per-event body of the listener (`src/event_loop.rs` lines
77–134): a key event first updates the modifier state, then chord matching
runs against the updated state; a non-key event does nothing. -/
def processEvent (hotkey : Hotkey) (show_original_hotkey : Option Hotkey)
    (current_mods : Modifiers) (ev : InputEvent) : Modifiers × List HotkeyEvent :=
  match ev with
  | InputEvent.key k v =>
      let m := updateMods current_mods k v
      (m, chordMatch hotkey show_original_hotkey m k v)
  | InputEvent.nonKey => (current_mods, [])

/-- The `for event in events` loop over one device's fetched batch. -/
def processEvents (hotkey : Hotkey) (show_original_hotkey : Option Hotkey) :
    Modifiers → List InputEvent → Modifiers × List HotkeyEvent
  | current_mods, [] => (current_mods, [])
  | current_mods, ev :: rest =>
      let p := processEvent hotkey show_original_hotkey current_mods ev
      let r := processEvents hotkey show_original_hotkey p.1 rest
      (r.1, p.2 ++ r.2)

/-- An open device handle owned by the listener thread; `nonblocking`
records whether `set_nonblocking` (the `O_NONBLOCK` fcntl of
`src/event_loop.rs` lines 22–30) has been applied to it. -/
structure Device where
  id : Nat
  nonblocking : Bool
deriving DecidableEq, Repr

/-- Rust `set_nonblocking(&keyboards)`: put every handle of the list in
non-blocking mode. -/
def set_nonblocking (keyboards : List Device) : List Device :=
  keyboards.map fun d => { d with nonblocking := true }

/-- Constant `libc::EAGAIN` on Linux. -/
def EAGAIN : Int := 11

/-- Constant `libc::EWOULDBLOCK` on Linux (the same value as `EAGAIN`). -/
def EWOULDBLOCK : Int := 11

/-- The outcome of one `device.fetch_events()` call: a batch of events, or
an I/O error carrying `raw_os_error()`. -/
inductive FetchResult where
  | ok (events : List InputEvent)
  | err (rawOsError : Option Int)
deriving DecidableEq, Repr

/-- The error class treated as "no data pending" by the listener
(`src/event_loop.rs` lines 138–141). -/
def isWouldBlock (e : Option Int) : Bool :=
  e == some EAGAIN || e == some EWOULDBLOCK

/-- The mutable locals of the listener thread (`src/event_loop.rs` lines
42–45): the owned device handles, the live modifier state, the instant of
the last rescan attempt (`Instant::now()` at thread start), and the
`had_error` flag. Time is in milliseconds since thread start. -/
structure ListenerState where
  keyboards : List Device
  current_mods : Modifiers
  last_rescan : Nat
  had_error : Bool
deriving DecidableEq, Repr

/-- Constant `RESCAN_INTERVAL = Duration::from_secs(10)` in milliseconds. -/
def RESCAN_INTERVAL : Nat := 10000

/-- The environment one iteration of the listener loop sees: the current
instant, what `find_keyboards()` would return if called (`none` = `Err`),
and the `fetch_events` outcome for each owned device, in device order. -/
structure PollEnv where
  now : Nat
  rescanResult : Option (List Device)
  reads : List FetchResult
deriving DecidableEq, Repr

/-- The `for device in keyboards.iter_mut()` loop (`src/event_loop.rs`
lines 74–147): threads the modifier state through the batches of the
successful reads, concatenates the sent events, and accumulates
`any_error`, which a read error sets only when its `raw_os_error` is
neither `EAGAIN` nor `EWOULDBLOCK`. -/
def devLoop (hotkey : Hotkey) (show_original_hotkey : Option Hotkey) :
    Modifiers → Bool → List FetchResult → Modifiers × List HotkeyEvent × Bool
  | current_mods, any_error, [] => (current_mods, [], any_error)
  | current_mods, any_error, FetchResult.ok events :: rest =>
      let p := processEvents hotkey show_original_hotkey current_mods events
      let r := devLoop hotkey show_original_hotkey p.1 any_error rest
      (r.1, p.2 ++ r.2.1, r.2.2)
  | current_mods, any_error, FetchResult.err e :: rest =>
      devLoop hotkey show_original_hotkey current_mods
        (any_error || (!(e == some EAGAIN) && !(e == some EWOULDBLOCK))) rest

/-- The observable outcome of one iteration of the listener loop: the new
state, the events sent on the channel, and whether `find_keyboards()` was
called (the rescan attempt). -/
structure IterResult where
  state : ListenerState
  sent : List HotkeyEvent
  rescanAttempted : Bool
deriving DecidableEq, Repr

/-- One iteration of the listener loop body (`src/event_loop.rs` lines
51–153): when `had_error` is set and at least `RESCAN_INTERVAL` has elapsed
since `last_rescan`, call `find_keyboards()` — on success the new handles
are put in non-blocking mode and swapped in, the modifier state is reset
and `had_error` cleared; on failure only `last_rescan` advances (in both
cases to the current instant). Then every owned device is drained, and
`had_error` is set when `any_error` came out true. -/
def pollIteration (hotkey : Hotkey) (show_original_hotkey : Option Hotkey)
    (st : ListenerState) (env : PollEnv) : IterResult :=
  let rescanDue := st.had_error && decide (RESCAN_INTERVAL ≤ env.now - st.last_rescan)
  let st1 :=
    if rescanDue then
      match env.rescanResult with
      | some new_keyboards =>
          { keyboards := set_nonblocking new_keyboards,
            current_mods := Modifiers.default,
            last_rescan := env.now,
            had_error := false }
      | none => { st with last_rescan := env.now }
    else st
  let d := devLoop hotkey show_original_hotkey st1.current_mods false env.reads
  { state := { st1 with current_mods := d.1, had_error := st1.had_error || d.2.2 },
    sent := d.2.1,
    rescanAttempted := rescanDue }

/-- The listener thread's `while running.load(..)` loop (`src/event_loop.rs`
line 50): the flag is read at the top of every iteration; each list element
supplies the flag value that read observes together with that iteration's
environment. The trace of executed iterations is returned. -/
def listenerLoop (hotkey : Hotkey) (show_original_hotkey : Option Hotkey) :
    ListenerState → List (Bool × PollEnv) → List IterResult
  | _, [] => []
  | st, (running, env) :: rest =>
    if running then
      let r := pollIteration hotkey show_original_hotkey st env
      r :: listenerLoop hotkey show_original_hotkey r.state rest
    else []

/-- The outcome of one `rx.recv_timeout(..)` call in `run_event_loop`
(`src/event_loop.rs` lines 175–239). -/
inductive RecvResult where
  | ok (e : HotkeyEvent)
  | timeout
  | disconnected
deriving DecidableEq, Repr

/-- The application loop of `run_event_loop` (`src/event_loop.rs` lines
173–240): `running` is read at the top of every iteration; a received event
is handled, a timeout loops again, a disconnect breaks out. The trace of
receive outcomes consumed by executed iterations is returned. -/
def appLoopTrace : List (Bool × RecvResult) → List RecvResult
  | [] => []
  | (running, r) :: rest =>
    if running then
      match r with
      | RecvResult.disconnected => [RecvResult.disconnected]
      | RecvResult.ok e => RecvResult.ok e :: appLoopTrace rest
      | RecvResult.timeout => RecvResult.timeout :: appLoopTrace rest
    else []

/-- The six physical modifier keys the tracking arm reacts to. -/
def isModifierKey : Key → Bool
  | Key.KEY_LEFTSHIFT | Key.KEY_RIGHTSHIFT => true
  | Key.KEY_LEFTCTRL | Key.KEY_RIGHTCTRL => true
  | Key.KEY_LEFTALT | Key.KEY_RIGHTALT => true
  | _ => false

/-- A press event (`value == 1`) of one of the six modifier keys. -/
def isModifierPress : InputEvent → Bool
  | InputEvent.key k v => isModifierKey k && v == 1
  | InputEvent.nonKey => false

/-- No batch of the given fetch results contains a modifier press. -/
def cleanOfModPress (reads : List FetchResult) : Bool :=
  reads.all fun r =>
    match r with
    | FetchResult.ok events => events.all fun e => !isModifierPress e
    | FetchResult.err _ => true

/-- A fetch result the listener counts as a device failure: an error whose
`raw_os_error` is outside the EAGAIN/EWOULDBLOCK class. -/
def readFailure : FetchResult → Bool
  | FetchResult.ok _ => false
  | FetchResult.err e => !isWouldBlock e

/-- The default main hotkey of `src/main.rs` (`F8`, no modifiers),
registered at index 0. -/
def hotkeyF8 : Hotkey := { key := Key.KEY_F8, modifiers := Modifiers.default }

/-- The default show-original hotkey (`Shift+F8`), registered at index 1. -/
def hotkeyShiftF8 : Hotkey := { key := Key.KEY_F8, modifiers := { shift := true } }

/-- A healthy listener state used in concrete traces. -/
def steadyState : ListenerState :=
  { keyboards := [{ id := 0, nonblocking := true }],
    current_mods := Modifiers.default, last_rescan := 0, had_error := false }

/-- An iteration environment in which the only device read fails with a
genuine I/O error (`raw_os_error = 5`, EIO), 20 s after thread start. -/
def errorEnv : PollEnv :=
  { now := 20000, rescanResult := none, reads := [FetchResult.err (some 5)] }

/-- An iteration environment 10 ms after `errorEnv` in which
`find_keyboards()` would succeed with one fresh device. -/
def recoverEnv : PollEnv :=
  { now := 20010, rescanResult := some [{ id := 1, nonblocking := false }], reads := [] }

/-- A listener state in error backoff: shift reads held, the error flag is
set, the last rescan attempt was at thread start. -/
def backoffState : ListenerState :=
  { keyboards := [{ id := 0, nonblocking := true }],
    current_mods := { shift := true }, last_rescan := 0, had_error := true }

/-- An environment whose reads return only the would-block error class and
an empty batch. -/
def wouldBlockEnv : PollEnv :=
  { now := 5, rescanResult := none,
    reads := [FetchResult.err (some 11), FetchResult.ok []] }

/-- An environment one cooldown after thread start in which
`find_keyboards()` fails. -/
def failRescanEnv : PollEnv := { now := 10000, rescanResult := none, reads := [] }

/-- An environment 9999 ms after the failed attempt of `failRescanEnv`, in
which `find_keyboards()` would succeed. -/
def earlyRetryEnv : PollEnv :=
  { now := 19999, rescanResult := some [{ id := 2, nonblocking := false }], reads := [] }

/-! ### Helper lemmas -/

lemma modsMatch_iff {a b : Modifiers} : modsMatch a b = true ↔ a = b := by
  cases a; cases b
  simp [modsMatch, Modifiers.mk.injEq, and_assoc]

lemma chordMatch_some_eq (hotkey so : Hotkey) (mods : Modifiers) (k : Key) (v : Int) :
    chordMatch hotkey (some so) mods k v =
      if k = so.key ∧ v = 1 ∧ mods = so.modifiers then [HotkeyEvent.ImproveShowOriginal]
      else if k = hotkey.key ∧ v = 1 ∧ mods = hotkey.modifiers then [HotkeyEvent.Improve]
      else [] := by
  simp [chordMatch, modsMatch_iff, and_assoc]

lemma chordMatch_none_eq (hotkey : Hotkey) (mods : Modifiers) (k : Key) (v : Int) :
    chordMatch hotkey none mods k v =
      if k = hotkey.key ∧ v = 1 ∧ mods = hotkey.modifiers then [HotkeyEvent.Improve]
      else [] := by
  simp [chordMatch, modsMatch_iff, and_assoc]

lemma updateMods_non_modifier {k : Key} (mods : Modifiers) (v : Int)
    (h : isModifierKey k = false) : updateMods mods k v = mods := by
  cases k <;> simp_all [isModifierKey, updateMods]

lemma updateMods_no_press_default {k : Key} {v : Int}
    (h : isModifierPress (InputEvent.key k v) = false) :
    updateMods Modifiers.default k v = Modifiers.default := by
  cases k <;>
    simp_all [isModifierPress, isModifierKey, updateMods, Modifiers.default]

lemma chordMatch_default_improve {hotkey : Hotkey} {so : Option Hotkey} {k : Key} {v : Int}
    (h : HotkeyEvent.Improve ∈ chordMatch hotkey so Modifiers.default k v) :
    hotkey.modifiers = Modifiers.default := by
  cases so with
  | none =>
      rw [chordMatch_none_eq] at h
      split at h <;> simp_all
  | some so' =>
      rw [chordMatch_some_eq] at h
      split at h
      · simp_all
      · split at h <;> simp_all

lemma chordMatch_default_show_original {hotkey so' : Hotkey} {k : Key} {v : Int}
    (h : HotkeyEvent.ImproveShowOriginal ∈ chordMatch hotkey (some so') Modifiers.default k v) :
    so'.modifiers = Modifiers.default := by
  rw [chordMatch_some_eq] at h
  split at h
  · simp_all
  · split at h <;> simp_all

lemma processEvents_default (hotkey : Hotkey) (so : Option Hotkey) :
    ∀ (events : List InputEvent), events.all (fun e => !isModifierPress e) = true →
      (processEvents hotkey so Modifiers.default events).1 = Modifiers.default ∧
      ∀ ev ∈ (processEvents hotkey so Modifiers.default events).2,
        (ev = HotkeyEvent.Improve → hotkey.modifiers = Modifiers.default) ∧
        (∀ so', so = some so' → ev = HotkeyEvent.ImproveShowOriginal →
          so'.modifiers = Modifiers.default)
  | [], _ => by simp [processEvents]
  | ev :: rest, h => by
      rw [List.all_cons, Bool.and_eq_true] at h
      obtain ⟨h1, h2⟩ := h
      cases ev with
      | nonKey =>
          have ih := processEvents_default hotkey so rest h2
          simpa [processEvents, processEvent] using ih
      | key k v =>
          have hupd : updateMods Modifiers.default k v = Modifiers.default :=
            updateMods_no_press_default (by simpa using h1)
          have ih := processEvents_default hotkey so rest h2
          constructor
          · simp [processEvents, processEvent, hupd, ih.1]
          · intro e he
            simp only [processEvents, processEvent, hupd, List.mem_append] at he
            rcases he with he | he
            · refine ⟨fun hi => ?_, fun so' hso hi => ?_⟩
              · exact chordMatch_default_improve (hi ▸ he)
              · subst hso
                exact chordMatch_default_show_original (hi ▸ he)
            · exact ih.2 e he

lemma devLoop_any_error (hotkey : Hotkey) (so : Option Hotkey) :
    ∀ (reads : List FetchResult) (mods : Modifiers) (any_error : Bool),
      (devLoop hotkey so mods any_error reads).2.2 = (any_error || reads.any readFailure)
  | [], mods, any_error => by simp [devLoop]
  | FetchResult.ok events :: rest, mods, any_error => by
      simp [devLoop, devLoop_any_error hotkey so rest, readFailure]
  | FetchResult.err e :: rest, mods, any_error => by
      simp [devLoop, devLoop_any_error hotkey so rest, readFailure, isWouldBlock,
        Bool.or_assoc]

lemma devLoop_default (hotkey : Hotkey) (so : Option Hotkey) :
    ∀ (reads : List FetchResult) (any_error : Bool), cleanOfModPress reads = true →
      (devLoop hotkey so Modifiers.default any_error reads).1 = Modifiers.default ∧
      ∀ ev ∈ (devLoop hotkey so Modifiers.default any_error reads).2.1,
        (ev = HotkeyEvent.Improve → hotkey.modifiers = Modifiers.default) ∧
        (∀ so', so = some so' → ev = HotkeyEvent.ImproveShowOriginal →
          so'.modifiers = Modifiers.default)
  | [], any_error, _ => by simp [devLoop]
  | FetchResult.ok events :: rest, any_error, h => by
      rw [cleanOfModPress, List.all_cons, Bool.and_eq_true] at h
      obtain ⟨h1, h2⟩ := h
      have hp := processEvents_default hotkey so events h1
      have ih := devLoop_default hotkey so rest any_error h2
      constructor
      · simp [devLoop, hp.1, ih.1]
      · intro e he
        simp only [devLoop, hp.1, List.mem_append] at he
        rcases he with he | he
        · exact hp.2 e he
        · exact ih.2 e he
  | FetchResult.err e :: rest, any_error, h => by
      rw [cleanOfModPress, List.all_cons, Bool.and_eq_true] at h
      have ih := devLoop_default hotkey so rest
        (any_error || (!(e == some EAGAIN) && !(e == some EWOULDBLOCK))) h.2
      simpa [devLoop] using ih

lemma collectKeyboards_supports :
    ∀ (entries : List DirEntry), ∀ d ∈ collectKeyboards entries, supportsKeyboard d = true
  | [] => by simp [collectKeyboards]
  | entry :: rest => by
      intro d hd
      simp only [collectKeyboards] at hd
      split at hd
      · exact collectKeyboards_supports rest d hd
      · split at hd
        · split at hd
          · next hsup =>
              rcases List.mem_cons.mp hd with h | h
              · subst h; exact hsup
              · exact collectKeyboards_supports rest d h
          · exact collectKeyboards_supports rest d hd
        · exact collectKeyboards_supports rest d hd

lemma collectKeyboards_skip (e : DirEntry) (he : e.openResult = none) :
    ∀ (pre post : List DirEntry),
      collectKeyboards (pre ++ e :: post) = collectKeyboards (pre ++ post)
  | [], post => by simp [collectKeyboards, he]
  | p :: pre, post => by
      have ih : collectKeyboards (pre.append (e :: post)) = collectKeyboards (pre.append post) :=
        collectKeyboards_skip e he pre post
      simp only [List.cons_append, collectKeyboards, ih]

lemma listenerLoop_stops (hotkey : Hotkey) (so : Option Hotkey) :
    ∀ (inputs : List (Bool × PollEnv)) (st : ListenerState) (i : Nat) (env : PollEnv),
      inputs.get? i = some (false, env) →
      (listenerLoop hotkey so st inputs).length ≤ i
  | [], _, i, env => by simp
  | (running, penv) :: rest, st, 0, env => by
      intro h
      simp only [List.get?_cons_zero, Option.some.injEq, Prod.mk.injEq] at h
      rw [listenerLoop, h.1]
      simp
  | (running, penv) :: rest, st, i + 1, env => by
      intro h
      simp only [List.get?_cons_succ] at h
      cases running with
      | false => rw [listenerLoop]; simp
      | true =>
          rw [listenerLoop]
          simpa using Nat.succ_le_succ
            (listenerLoop_stops hotkey so rest
              (pollIteration hotkey so st penv).state i env h)

lemma appLoopTrace_stops :
    ∀ (inputs : List (Bool × RecvResult)) (j : Nat) (r : RecvResult),
      inputs.get? j = some (false, r) →
      (appLoopTrace inputs).length ≤ j
  | [], j, r => by simp
  | (running, rr) :: rest, 0, r => by
      intro h
      simp only [List.get?_cons_zero, Option.some.injEq, Prod.mk.injEq] at h
      simp [appLoopTrace, h.1]
  | (running, rr) :: rest, j + 1, r => by
      intro h
      simp only [List.get?_cons_succ] at h
      cases running with
      | false => simp [appLoopTrace]
      | true =>
          cases rr with
          | disconnected => simp [appLoopTrace]
          | ok e =>
              simpa [appLoopTrace] using Nat.succ_le_succ (appLoopTrace_stops rest j r h)
          | timeout =>
              simpa [appLoopTrace] using Nat.succ_le_succ (appLoopTrace_stops rest j r h)

/-! ### Claim theorems -/

/-- C1: for each of the two configured chords (distinct as registered, the
main hotkey and its shift variant), a key-press event (`value = 1`) of the
chord's trigger key produces that chord's event exactly when the live
modifier state equals the chord's required modifier set on all three
booleans; and in the concrete configuration index 0 = `F8` (no modifiers),
index 1 = `Shift+F8`, a plain F8 press emits index 0 (`Improve`), a press
with shift held emits index 1 (`ImproveShowOriginal`), and a press with
ctrl held emits neither. -/
theorem exact_modifier_match (hotkey so : Hotkey) (mods : Modifiers) (k : Key)
    (hdist : ¬(so.key = hotkey.key ∧ so.modifiers = hotkey.modifiers)) :
    (chordMatch hotkey (some so) mods k 1 = [HotkeyEvent.ImproveShowOriginal]
       ↔ (k = so.key ∧ mods = so.modifiers))
    ∧ (chordMatch hotkey (some so) mods k 1 = [HotkeyEvent.Improve]
       ↔ (k = hotkey.key ∧ mods = hotkey.modifiers))
    ∧ (processEvents hotkeyF8 (some hotkeyShiftF8) Modifiers.default
        [InputEvent.key Key.KEY_F8 1]).2 = [HotkeyEvent.Improve]
    ∧ (processEvents hotkeyF8 (some hotkeyShiftF8) Modifiers.default
        [InputEvent.key Key.KEY_LEFTSHIFT 1, InputEvent.key Key.KEY_F8 1]).2
        = [HotkeyEvent.ImproveShowOriginal]
    ∧ (processEvents hotkeyF8 (some hotkeyShiftF8) Modifiers.default
        [InputEvent.key Key.KEY_LEFTCTRL 1, InputEvent.key Key.KEY_F8 1]).2 = [] := by
  refine ⟨?_, ?_, by decide, by decide, by decide⟩
  · rw [chordMatch_some_eq]
    split_ifs with h1 h2 <;> simp_all
  · rw [chordMatch_some_eq]
    split_ifs with h1 h2 <;> simp_all

/-- C1 witness: the Shift+F8 scenario instance. -/
theorem exact_modifier_match_witness :
    (processEvents hotkeyF8 (some hotkeyShiftF8) Modifiers.default
      [InputEvent.key Key.KEY_LEFTSHIFT 1, InputEvent.key Key.KEY_F8 1]).2
      = [HotkeyEvent.ImproveShowOriginal] :=
  (exact_modifier_match hotkeyF8 hotkeyShiftF8 Modifiers.default Key.KEY_F8
    (by decide)).2.2.2.1

/-- C2: a press (`value = 1`) of either physical variant of a modifier sets
the logical modifier true, a release (`value = 0`) of either variant sets
it false unconditionally — in particular press left-shift, press
right-shift, release left-shift leaves logical shift false — and key events
of non-modifier keys leave all three booleans unchanged. -/
theorem modifier_tracking (mods : Modifiers) (k : Key) (v : Int)
    (hnm : isModifierKey k = false) :
    (updateMods mods Key.KEY_LEFTSHIFT 1).shift = true
    ∧ (updateMods mods Key.KEY_RIGHTSHIFT 1).shift = true
    ∧ (updateMods mods Key.KEY_LEFTSHIFT 0).shift = false
    ∧ (updateMods mods Key.KEY_RIGHTSHIFT 0).shift = false
    ∧ (updateMods mods Key.KEY_LEFTCTRL 1).ctrl = true
    ∧ (updateMods mods Key.KEY_RIGHTCTRL 1).ctrl = true
    ∧ (updateMods mods Key.KEY_LEFTCTRL 0).ctrl = false
    ∧ (updateMods mods Key.KEY_RIGHTCTRL 0).ctrl = false
    ∧ (updateMods mods Key.KEY_LEFTALT 1).alt = true
    ∧ (updateMods mods Key.KEY_RIGHTALT 1).alt = true
    ∧ (updateMods mods Key.KEY_LEFTALT 0).alt = false
    ∧ (updateMods mods Key.KEY_RIGHTALT 0).alt = false
    ∧ (updateMods (updateMods (updateMods mods Key.KEY_LEFTSHIFT 1) Key.KEY_RIGHTSHIFT 1)
        Key.KEY_LEFTSHIFT 0).shift = false
    ∧ updateMods mods k v = mods := by
  refine ⟨?_, ?_, ?_, ?_, ?_, ?_, ?_, ?_, ?_, ?_, ?_, ?_, ?_,
    updateMods_non_modifier mods v hnm⟩ <;> simp [updateMods]

/-- C2 witness: a non-modifier key press leaves held modifiers unchanged. -/
theorem modifier_tracking_witness :
    updateMods { shift := true } Key.KEY_A 1 = { shift := true } := by
  have h := modifier_tracking { shift := true } Key.KEY_A 1 (by decide)
  obtain ⟨-, -, -, -, -, -, -, -, -, -, -, -, -, hlast⟩ := h
  exact hlast

/-- C3 counterexample: with the same chord (`F8`, no modifiers) registered
as both the main hotkey (index 0) and the show-original hotkey (index 1),
a plain F8 press emits the show-original event (index 1), not the
earlier-registered index 0 as the claim states. -/
theorem duplicate_registration_counterexample :
    chordMatch hotkeyF8 (some hotkeyF8) Modifiers.default Key.KEY_F8 1
      = [HotkeyEvent.ImproveShowOriginal]
    ∧ chordMatch hotkeyF8 (some hotkeyF8) Modifiers.default Key.KEY_F8 1
      ≠ [HotkeyEvent.Improve] := by
  decide

/-- C3 amended: the listener checks the show-original chord (index 1)
first; whenever a press matches it — in particular in the degenerate case
of duplicate registrations — the emitted event is the later-registered
chord, index 1. -/
theorem show_original_checked_first (hotkey so : Hotkey) (mods : Modifiers) (k : Key)
    (hkey : k = so.key) (hmods : mods = so.modifiers) :
    chordMatch hotkey (some so) mods k 1 = [HotkeyEvent.ImproveShowOriginal] := by
  rw [chordMatch_some_eq]
  simp [hkey, hmods]

/-- C3 witness: a duplicated `Ctrl+F9` chord emits the show-original
event. -/
theorem show_original_checked_first_witness :
    chordMatch { key := Key.KEY_F9, modifiers := { ctrl := true } }
      (some { key := Key.KEY_F9, modifiers := { ctrl := true } })
      { ctrl := true } Key.KEY_F9 1 = [HotkeyEvent.ImproveShowOriginal] :=
  show_original_checked_first { key := Key.KEY_F9, modifiers := { ctrl := true } }
    { key := Key.KEY_F9, modifiers := { ctrl := true } }
    { ctrl := true } Key.KEY_F9 rfl rfl

/-- C9: `parse_hotkey "Ctrl+Alt+F1"` yields modifiers
{ctrl := true, alt := true, shift := false} with trigger `F1`; an unknown
modifier token (`"Foo+F1"`) fails with an error naming `Foo`; an unknown
key token (`"Ctrl+Foo"`) fails with an error naming `Foo`. -/
theorem parse_hotkey_cases :
    parse_hotkey "Ctrl+Alt+F1"
      = Except.ok { key := Key.KEY_F1
                    , modifiers := { shift := false, ctrl := true, alt := true } }
    ∧ parse_hotkey "Foo+F1" = Except.error "Unknown modifier: Foo"
    ∧ parse_hotkey "Ctrl+Foo" = Except.error "Unknown key: Foo" :=
  ⟨rfl, rfl, rfl⟩

/-- C10: a key event whose value is neither 1 (press) nor 0 (release) —
such as an autorepeat event with value 2 — leaves all three modifier
booleans unchanged and never produces a hotkey event, whatever the key and
the live modifier state. -/
theorem autorepeat_ignored (hotkey : Hotkey) (so : Option Hotkey) (mods : Modifiers)
    (k : Key) (v : Int) (h1 : v ≠ 1) (h0 : v ≠ 0) :
    updateMods mods k v = mods ∧ chordMatch hotkey so mods k v = [] := by
  have hp : (v == 1) = false := by simp [h1]
  have hr : (v == 0) = false := by simp [h0]
  constructor
  · cases k <;> simp [updateMods, hp, hr]
  · cases so <;> simp [chordMatch, hp]

/-- C10 witness: an autorepeat (value 2) of F8 while shift is held — an
exact match of the Shift+F8 chord apart from the phase — emits nothing and
keeps the modifier state. -/
theorem autorepeat_ignored_witness :
    updateMods { shift := true } Key.KEY_F8 2 = { shift := true }
    ∧ chordMatch hotkeyF8 (some hotkeyShiftF8) { shift := true } Key.KEY_F8 2 = [] :=
  autorepeat_ignored hotkeyF8 (some hotkeyShiftF8) { shift := true } Key.KEY_F8 2
    (by decide) (by decide)

/-- C4: when the rescan succeeds after a device error (error flag set, the
cooldown elapsed, `find_keyboards()` returns a device list), the new
handles are put in non-blocking mode and replace the old set, the modifier
tracker is reset to all-false, and — as long as the post-rescan reads
contain no modifier press — no chord requiring a modifier can fire in that
iteration. -/
theorem rescan_resets_state (hotkey : Hotkey) (so : Option Hotkey)
    (st : ListenerState) (env : PollEnv) (devs : List Device)
    (herr : st.had_error = true)
    (hcool : RESCAN_INTERVAL ≤ env.now - st.last_rescan)
    (hres : env.rescanResult = some devs)
    (hclean : cleanOfModPress env.reads = true) :
    (pollIteration hotkey so st env).state.keyboards = set_nonblocking devs
    ∧ (∀ d ∈ (pollIteration hotkey so st env).state.keyboards, d.nonblocking = true)
    ∧ (pollIteration hotkey so st env).state.current_mods = Modifiers.default
    ∧ (hotkey.modifiers ≠ Modifiers.default →
        HotkeyEvent.Improve ∉ (pollIteration hotkey so st env).sent)
    ∧ (∀ so', so = some so' → so'.modifiers ≠ Modifiers.default →
        HotkeyEvent.ImproveShowOriginal ∉ (pollIteration hotkey so st env).sent) := by
  have hd : (st.had_error && decide (RESCAN_INTERVAL ≤ env.now - st.last_rescan)) = true := by
    simp [herr, hcool]
  have hdl := devLoop_default hotkey so env.reads false hclean
  refine ⟨?_, ?_, ?_, ?_, ?_⟩
  · simp [pollIteration, hd, hres]
  · intro d hdmem
    simp only [pollIteration, hd, hres, if_true] at hdmem
    simp only [set_nonblocking, List.mem_map] at hdmem
    obtain ⟨d', -, rfl⟩ := hdmem
    rfl
  · simp [pollIteration, hd, hres, hdl.1]
  · intro hne hmem
    simp only [pollIteration, hd, hres, if_true] at hmem
    exact hne ((hdl.2 _ hmem).1 rfl)
  · intro so' hso hne hmem
    simp only [pollIteration, hd, hres, if_true] at hmem
    exact hne ((hdl.2 _ hmem).2 so' hso rfl)

/-- C4 witness: a successful rescan out of `backoffState` (shift stale-held)
resets the modifiers, and the Shift+F8 chord does not fire. -/
theorem rescan_resets_state_witness :
    (pollIteration hotkeyF8 (some hotkeyShiftF8) backoffState recoverEnv).state.current_mods
      = Modifiers.default
    ∧ HotkeyEvent.ImproveShowOriginal
        ∉ (pollIteration hotkeyF8 (some hotkeyShiftF8) backoffState recoverEnv).sent := by
  have h := rescan_resets_state hotkeyF8 (some hotkeyShiftF8) backoffState recoverEnv
    [{ id := 1, nonblocking := false }] (by decide) (by decide) (by decide) (by decide)
  exact ⟨h.2.2.1, h.2.2.2.2 hotkeyShiftF8 rfl (by decide)⟩

/-- C5: from the healthy state (error flag clear), an iteration never
attempts a rescan; reads that are all successes or would-block errors leave
the error flag clear (and the device set untouched), while any read error
outside the EAGAIN/EWOULDBLOCK class sets the error flag, entering the
backoff state. -/
theorem would_block_not_failure (hotkey : Hotkey) (so : Option Hotkey)
    (st : ListenerState) (env : PollEnv) (hok : st.had_error = false) :
    (pollIteration hotkey so st env).rescanAttempted = false
    ∧ (env.reads.any readFailure = false →
        (pollIteration hotkey so st env).state.had_error = false)
    ∧ (env.reads.any readFailure = true →
        (pollIteration hotkey so st env).state.had_error = true)
    ∧ (pollIteration hotkey so st env).state.keyboards = st.keyboards := by
  have h1 : (st.had_error && decide (RESCAN_INTERVAL ≤ env.now - st.last_rescan)) = false := by
    simp [hok]
  refine ⟨?_, ?_, ?_, ?_⟩ <;>
    simp [pollIteration, h1, hok, devLoop_any_error]

/-- C5 witness: a would-block read (`raw_os_error = 11`) leaves the error
flag clear. -/
theorem would_block_not_failure_witness :
    (pollIteration hotkeyF8 none steadyState wouldBlockEnv).state.had_error = false :=
  (would_block_not_failure hotkeyF8 none steadyState wouldBlockEnv (by decide)).2.1
    (by decide)

/-- C6: both loops read the running flag at the top of every iteration, so
when the flag reads false at iteration slot `i` of the listener loop (resp.
slot `j` of the application loop), the loop executes at most `i` (resp.
`j`) iterations in total — no further iteration starts once the flag is
observed false. -/
theorem shutdown_within_one_iteration (hotkey : Hotkey) (so : Option Hotkey)
    (st : ListenerState) (inputs : List (Bool × PollEnv)) (i : Nat) (env : PollEnv)
    (ainputs : List (Bool × RecvResult)) (j : Nat) (r : RecvResult)
    (h1 : inputs.get? i = some (false, env))
    (h2 : ainputs.get? j = some (false, r)) :
    (listenerLoop hotkey so st inputs).length ≤ i
    ∧ (appLoopTrace ainputs).length ≤ j :=
  ⟨listenerLoop_stops hotkey so inputs st i env h1, appLoopTrace_stops ainputs j r h2⟩

/-- C6 witness: with the flag false at slot 1 of the listener trace and
slot 0 of the application trace, the loops stop accordingly. -/
theorem shutdown_within_one_iteration_witness :
    (listenerLoop hotkeyF8 none steadyState [(true, errorEnv), (false, errorEnv)]).length ≤ 1
    ∧ (appLoopTrace [(false, RecvResult.timeout)]).length ≤ 0 :=
  shutdown_within_one_iteration hotkeyF8 none steadyState
    [(true, errorEnv), (false, errorEnv)] 1 errorEnv
    [(false, RecvResult.timeout)] 0 RecvResult.timeout rfl rfl

/-- C7 counterexample: the rescan gate measures elapsed time from the last
rescan attempt (initially the thread start), not from the error. With the
listener started at 0 and a device error read at 20000 ms, the very next
iteration at 20010 ms — 10 ms after the error, far less than the 10 s
cooldown — already re-runs the enumerator and recovers. -/
theorem backoff_from_error_counterexample :
    (pollIteration hotkeyF8 none steadyState errorEnv).rescanAttempted = false
    ∧ (pollIteration hotkeyF8 none steadyState errorEnv).state.had_error = true
    ∧ (pollIteration hotkeyF8 none
        (pollIteration hotkeyF8 none steadyState errorEnv).state recoverEnv).rescanAttempted
        = true
    ∧ (pollIteration hotkeyF8 none
        (pollIteration hotkeyF8 none steadyState errorEnv).state recoverEnv).state.had_error
        = false
    ∧ recoverEnv.now - errorEnv.now < RESCAN_INTERVAL := by
  decide

/-- C7 amended: the enumerator is re-run exactly when the error flag is set
and at least one full cooldown has elapsed since the previous rescan
attempt (initially the thread start); when the enumerator fails during
backoff, the listener stays in backoff with the attempt instant recorded,
and no retry happens until another full cooldown has elapsed since that
failed attempt. -/
theorem backoff_retry_after_cooldown (hotkey : Hotkey) (so : Option Hotkey)
    (st : ListenerState) (env : PollEnv) :
    ((pollIteration hotkey so st env).rescanAttempted = true ↔
      (st.had_error = true ∧ RESCAN_INTERVAL ≤ env.now - st.last_rescan))
    ∧ (st.had_error = true → RESCAN_INTERVAL ≤ env.now - st.last_rescan →
        env.rescanResult = none →
        (pollIteration hotkey so st env).state.had_error = true
        ∧ (pollIteration hotkey so st env).state.last_rescan = env.now
        ∧ ∀ env' : PollEnv,
            env'.now - (pollIteration hotkey so st env).state.last_rescan < RESCAN_INTERVAL →
            (pollIteration hotkey so (pollIteration hotkey so st env).state env').rescanAttempted
              = false) := by
  constructor
  · simp [pollIteration, Bool.and_eq_true, decide_eq_true_eq]
  · intro herr hcool hres
    have hd : (st.had_error && decide (RESCAN_INTERVAL ≤ env.now - st.last_rescan)) = true := by
      simp [herr, hcool]
    refine ⟨?_, ?_, ?_⟩
    · simp [pollIteration, herr, hcool, hres]
    · simp [pollIteration, herr, hcool, hres]
    · intro env' hlt
      have hlr : (pollIteration hotkey so st env).state.last_rescan = env.now := by
        simp [pollIteration, herr, hcool, hres]
      show ((pollIteration hotkey so st env).state.had_error &&
        decide (RESCAN_INTERVAL ≤
          env'.now - (pollIteration hotkey so st env).state.last_rescan)) = false
      rw [hlr]
      rw [hlr] at hlt
      have hnle : ¬(RESCAN_INTERVAL ≤ env'.now - env.now) := Nat.not_le.mpr hlt
      simp [hnle]

/-- C7 amended witness: after a failed enumerator call at 10000 ms the
attempt instant is recorded and a retry 9999 ms later is not attempted. -/
theorem backoff_retry_after_cooldown_witness :
    (pollIteration hotkeyF8 none backoffState failRescanEnv).state.last_rescan = 10000
    ∧ (pollIteration hotkeyF8 none
        (pollIteration hotkeyF8 none backoffState failRescanEnv).state
        earlyRetryEnv).rescanAttempted = false := by
  have h := (backoff_retry_after_cooldown hotkeyF8 none backoffState failRescanEnv).2
    (by decide) (by decide) (by decide)
  exact ⟨h.2.1, h.2.2 earlyRetryEnv (by decide)⟩

/-- C8: `find_keyboards` never returns an empty list as success; when the
collected set is empty it fails with the permission-guidance message;
an entry whose open failed is skipped without affecting the result; and
every device kept supports the baseline alphabetic key. -/
theorem find_keyboards_contract (entries pre post : List DirEntry) (e : DirEntry)
    (l : List RawDevice) :
    (find_keyboards entries = Except.ok l → l ≠ [])
    ∧ (collectKeyboards entries = [] →
        find_keyboards entries = Except.error NO_KEYBOARDS_MSG)
    ∧ (e.openResult = none →
        collectKeyboards (pre ++ e :: post) = collectKeyboards (pre ++ post))
    ∧ (find_keyboards entries = Except.ok l → ∀ d ∈ l, supportsKeyboard d = true) := by
  refine ⟨?_, ?_, fun he => collectKeyboards_skip e he pre post, ?_⟩
  · intro h
    simp only [find_keyboards] at h
    split at h
    · cases h
    · next hne =>
        simp only [Except.ok.injEq] at h
        subst h
        simpa [List.isEmpty_iff] using hne
  · intro h
    simp [find_keyboards, h]
  · intro h d hd
    simp only [find_keyboards] at h
    split at h
    · cases h
    · simp only [Except.ok.injEq] at h
      subst h
      exact collectKeyboards_supports entries d hd

/-- C8 witness: a single entry that fails to open yields the
`NoKeyboardsFound`-style error, not an empty success. -/
theorem find_keyboards_contract_witness :
    find_keyboards [{ name := "event0", openResult := none }]
      = Except.error NO_KEYBOARDS_MSG :=
  (find_keyboards_contract [{ name := "event0", openResult := none }] [] []
    { name := "event0", openResult := none } []).2.1 (by decide)

end ImproveWriting
